import Mathlib

/-!
Shallow embedding of `src/agents/Data_collection_agent.py` from the
Social_Media_agent repository, together with proofs settling the frozen
claims about its specification.

Modelling conventions:
* Python strings are Lean `String`s (a structure over `List Char`); the
  helpers `pyLower`, `pyInStr`, `pyJoinSpace`, `splitWsAux` mirror the
  Python operations `str.lower()`, `in`, `" ".join`, `str.split()`.
* A vendor HTTP call (`requests.get`, `Article.download/parse`, tweepy)
  is modelled as an environment value of type `Except PyExc _`:
  `.error e` is the call raising an exception, `.ok r` a returned
  response carrying its status code and parsed payload.
* The repository wraps any exception escaping a `CompanyDataCollector`
  method as `SocialMediaAgentException` and re-raises it; the wrapper
  preserves the original error, so re-raising is modelled by propagating
  the same `PyExc`.
* `dict` payload accesses with `.get(key, default)` are absorbed into the
  payload record fields (a field holds the post-`get` value; fields that
  the News/Search APIs may deliver as JSON `null` are `Option String`).
-/

/-- A Python exception value (identified by its message). -/
structure PyExc where
  msg : String
deriving DecidableEq, Repr

deriving instance DecidableEq for Except

/-- Python truthiness of an optional string: `None` and `""` are falsy. -/
def pyTruthy (o : Option String) : Bool :=
  o.getD "" != ""

/-- `str.lower()` (ASCII case folding, as Lean's `Char.toLower`). -/
def pyLower (s : String) : String :=
  (s.data.map Char.toLower).asString

/-- Does `hay` start with `needle` (character lists)? -/
def startsWithChars : List Char → List Char → Bool
  | [], _ => true
  | _ :: _, [] => false
  | a :: as, b :: bs => a == b && startsWithChars as bs

/-- Is `needle` a contiguous substring of `hay` (character lists)? -/
def hasSubChars (needle : List Char) : List Char → Bool
  | [] => needle.isEmpty
  | c :: rest => startsWithChars needle (c :: rest) || hasSubChars needle rest

/-- Python's `needle in hay` for strings: substring containment. -/
def pyInStr (needle hay : String) : Bool :=
  hasSubChars needle.data hay.data

/-- Python's `" ".join(l)`. -/
def pyJoinSpace : List String → String
  | [] => ""
  | [s] => s
  | s :: rest => s ++ " " ++ pyJoinSpace rest

/-- Python's `s.rstrip(c)`: drop trailing occurrences of `c`. -/
def pyRstrip (c : Char) (s : String) : String :=
  ((s.data.reverse.dropWhile (fun d => d == c)).reverse).asString

/-- Worker for Python's `str.split()`: split on whitespace runs, never
producing empty tokens.  `acc` holds the (reversed) current token. -/
def splitWsAux : List Char → List Char → List (List Char)
  | [], acc => if acc.isEmpty then [] else [acc.reverse]
  | c :: cs, acc =>
    if c.isWhitespace then
      if acc.isEmpty then splitWsAux cs [] else acc.reverse :: splitWsAux cs []
    else splitWsAux cs (c :: acc)

/-- Python's `s.split()` (no argument): whitespace-run splitting. -/
def pySplitWs (s : String) : List String :=
  (splitWsAux s.data []).map List.asString

/-! ## Data model (`self.company_data`) -/

/-- One value of the `website_content` dict: `{"title", "text"}`, with
`top_image` present only for the `"main"` section. -/
structure WebSection where
  title : String
  text : String
  top_image : Option String := none
deriving DecidableEq, Repr

/-- One stored news dict (the values of the six `article.get(k, '')`
calls in `fetch_news_articles`; `none` is a JSON `null` value). -/
structure NewsItem where
  title : Option String := some ""
  source : Option String := some ""
  url : Option String := some ""
  publishedAt : Option String := some ""
  content : Option String := none
  description : Option String := none
deriving DecidableEq, Repr

/-- One stored `search_results` entry. -/
structure SearchHit where
  title : String
  link : String
  snippet : String
deriving DecidableEq, Repr

/-- One stored `competitors` entry. -/
structure CompetitorMention where
  source : String
  title : String
  snippet : String
deriving DecidableEq, Repr

/-- The `basic_info` sub-dict. -/
structure BasicInfo where
  name : String
  description : String
  timestamp : String
  official_website : Option String := none
deriving DecidableEq, Repr

/-- The `self.company_data` record.  The `website_content` dict has the
three possible keys `"main"`, `"about"`, `"products"`, modelled as three
optional fields; `search_results` is `none` until the key is created. -/
structure CompanyData where
  basic_info : BasicInfo
  news : List NewsItem := []
  website_content_main : Option WebSection := none
  website_content_about : Option WebSection := none
  website_content_products : Option WebSection := none
  industry_keywords : List String := []
  competitors : List CompetitorMention := []
  search_results : Option (List SearchHit) := none
deriving DecidableEq, Repr

/-- `self.company_data` as built by `CompanyDataCollector.__init__`. -/
def initCompanyData (name description timestamp : String) : CompanyData :=
  { basic_info := { name := name, description := description, timestamp := timestamp } }

/-! ## `fetch_google_search_results` -/

/-- One raw `items` element of a Custom Search response; `none` marks a
missing key (so `item.get(k, '')` yields `""` and `item.get('link')`
yields `None`). -/
structure SearchItem where
  displayLink : Option String := none
  link : Option String := none
  title : Option String := none
  snippet : Option String := none
deriving DecidableEq, Repr

/-- A Custom Search HTTP response: status code, and the parsed body's
`items` key (absent when the key is missing). -/
structure SearchResponse where
  status : Nat
  items : Option (List SearchItem) := none
deriving DecidableEq, Repr

/-- The domain/name overlap test of line 63: case-insensitive substring
containment in either direction between `item.get('displayLink', '')`
and the company name. -/
def displayLinkOverlap (name : String) (it : SearchItem) : Bool :=
  pyInStr (pyLower (it.displayLink.getD "")) (pyLower name) ||
    pyInStr (pyLower name) (pyLower (it.displayLink.getD ""))

/-- The `official_website` value after the item loop of lines 62-71:
every overlapping item overwrites the field with its `link`. -/
def adoptOfficial (name : String) (items : List SearchItem) (init0 : Option String) :
    Option String :=
  items.foldl (fun acc it => if displayLinkOverlap name it then it.link else acc) init0

/-- `CompanyDataCollector.fetch_google_search_results` (lines 39-79).
The vendor call is the environment value `resp`; an exception there is
re-raised (wrapped as `SocialMediaAgentException`). -/
def fetch_google_search_results (name : String) (cd : CompanyData)
    (resp : Except PyExc SearchResponse) : Except PyExc (CompanyData × Bool) :=
  match resp with
  | .error e => .error e
  | .ok r =>
    if r.status = 200 then
      match r.items with
      | some items =>
        .ok ({ cd with
                basic_info := { cd.basic_info with
                  official_website := adoptOfficial name items cd.basic_info.official_website },
                search_results := some (items.map (fun it =>
                  { title := it.title.getD "", link := it.link.getD "",
                    snippet := it.snippet.getD "" })) },
             true)
      | none => .ok (cd, false)
    else .ok (cd, false)

/-! ## `fetch_news_articles` -/

/-- A News API HTTP response: status code, the body's `status` field and
the body's `articles` list (each article given as the stored dict shape;
the per-field `.get` defaulting is absorbed into the payload). -/
structure NewsResponse where
  status : Nat
  bodyStatus : String := "ok"
  articles : List NewsItem := []
deriving DecidableEq, Repr

/-- `CompanyDataCollector.fetch_news_articles` (lines 81-118): on a 200
response with body status `"ok"` the first 20 articles are appended to
`news` and `True` is returned; any other response returns `False`; an
exception during the fetch is re-raised. -/
def fetch_news_articles (cd : CompanyData) (resp : Except PyExc NewsResponse) :
    Except PyExc (CompanyData × Bool) :=
  match resp with
  | .error e => .error e
  | .ok r =>
    if r.status = 200 then
      if r.bodyStatus = "ok" then
        .ok ({ cd with news := cd.news ++ r.articles.take 20 }, true)
      else .ok (cd, false)
    else .ok (cd, false)

/-! ## `scrape_company_website` -/

/-- The result of a successful `Article(url).download(); .parse()`. -/
structure Doc where
  title : String
  text : String
  top_image : String := ""
deriving DecidableEq, Repr

/-- The about-page candidate URLs (lines 142-147). -/
def about_urls (base : String) : List String :=
  [pyRstrip (Char.ofNat 47) base ++ "/about",
   pyRstrip (Char.ofNat 47) base ++ "/about-us",
   pyRstrip (Char.ofNat 47) base ++ "/company",
   pyRstrip (Char.ofNat 47) base ++ "/our-company"]

/-- The products-page candidate URLs (lines 166-170). -/
def product_urls (base : String) : List String :=
  [pyRstrip (Char.ofNat 47) base ++ "/products",
   pyRstrip (Char.ofNat 47) base ++ "/services",
   pyRstrip (Char.ofNat 47) base ++ "/brands"]

/-- The fallback loops of lines 149-162 and 172-185: try each candidate
URL in order; a raising fetch is skipped (`except: continue`); the first
document whose text is strictly longer than 100 characters is kept
(`break`); a shorter document falls through to the next candidate. -/
def tryCandidates (fetch : String → Except PyExc Doc) : List String → Option Doc
  | [] => none
  | u :: rest =>
    match fetch u with
    | .error _ => tryCandidates fetch rest
    | .ok d => if 100 < d.text.length then some d else tryCandidates fetch rest

/-- `CompanyDataCollector.scrape_company_website` (lines 120-190).
`fetch` is the environment: per-URL download+parse outcome.  The main
page is stored with no length check; an exception on the main page is
re-raised by the outer handler; the about/products sections are resolved
by `tryCandidates`. -/
def scrape_company_website (cd : CompanyData) (fetch : String → Except PyExc Doc) :
    Except PyExc (CompanyData × Bool) :=
  if pyTruthy cd.basic_info.official_website then
    match fetch (cd.basic_info.official_website.getD "") with
    | .error e => .error e
    | .ok mainDoc =>
      let base := cd.basic_info.official_website.getD ""
      let mainSec : WebSection :=
        { title := mainDoc.title, text := mainDoc.text, top_image := some mainDoc.top_image }
      let cd1 := { cd with website_content_main := some mainSec }
      let cd2 :=
        match tryCandidates fetch (about_urls base) with
        | some d => { cd1 with website_content_about := some { title := d.title, text := d.text } }
        | none => cd1
      let cd3 :=
        match tryCandidates fetch (product_urls base) with
        | some d => { cd2 with website_content_products := some { title := d.title, text := d.text } }
        | none => cd2
      .ok (cd3, true)
  else .ok (cd, false)

/-! ## `extract_industry_keywords` -/

/-- The `website_content.values()` traversal of lines 199-201: dict
insertion order is main, about, products (the order the scraper creates
the keys); every stored section is a dict with a `"text"` key. -/
def websiteSections (cd : CompanyData) : List WebSection :=
  [cd.website_content_main, cd.website_content_about, cd.website_content_products].filterMap id

/-- The news part of `all_text` (lines 204-210): per article, append the
content if truthy, then the description if truthy. -/
def newsTexts (news : List NewsItem) : List String :=
  news.flatMap (fun a =>
    (if pyTruthy a.content then [a.content.getD ""] else []) ++
      (if pyTruthy a.description then [a.description.getD ""] else []))

/-- The complete `all_text` list as of line 211 (website sections first,
then news texts); line 214's re-filter of `None` entries is the identity
here since every element appended is a string. -/
def allTextOf (cd : CompanyData) : List String :=
  (websiteSections cd).map WebSection.text ++ newsTexts cd.news

/-- Line 215, 217: `" ".join(all_text).lower().split()`. -/
def combinedTokens (texts : List String) : List String :=
  pySplitWs (pyLower (pyJoinSpace texts))

/-- The stopword list of line 220. -/
def stopwords : List String :=
  ["the", "and", "or", "in", "on", "at", "to", "a", "an", "of", "for", "with", "by"]

/-- The filter of line 222: not a stopword and longer than 3 characters. -/
def keepWord (w : String) : Bool :=
  !(stopwords.contains w) && decide (3 < w.length)

/-- One `word_freq[word] = word_freq.get(word, 0) + 1` step on the dict,
modelled as an insertion-ordered association list (Python dicts preserve
insertion order; an update leaves the key's position unchanged). -/
def bump (freq : List (String × Nat)) (w : String) : List (String × Nat) :=
  if freq.any (fun p => p.1 == w) then
    freq.map (fun p => if p.1 == w then (p.1, p.2 + 1) else p)
  else freq ++ [(w, 1)]

/-- The counting loop of lines 221-223. -/
def buildFreq (tokens : List String) : List (String × Nat) :=
  tokens.foldl (fun f w => if keepWord w then bump f w else f) []

/-- `word_freq.get(w, 0)` on the association list. -/
def lookupFreq : List (String × Nat) → String → Nat
  | [], _ => 0
  | p :: rest, w => if p.1 = w then p.2 else lookupFreq rest w

/-- One step of a stable descending insertion sort on the counts: the
new pair goes after every existing pair with an equal or larger count. -/
def insertDesc (p : String × Nat) : List (String × Nat) → List (String × Nat)
  | [] => [p]
  | q :: rest => if q.2 < p.2 then p :: q :: rest else q :: insertDesc p rest

/-- Line 226's `sorted(word_freq.items(), key=lambda x: x[1],
reverse=True)`: Python's sort is stable and `reverse=True` preserves
stability, so it equals this stable descending insertion sort applied to
the insertion-ordered items. -/
def sortDesc (l : List (String × Nat)) : List (String × Nat) :=
  l.foldl (fun acc p => insertDesc p acc) []

/-- Lines 215-227 as a function of the `all_text` list: the top-50 (by
descending frequency) surviving tokens, counts discarded. -/
def keywordsOfTexts (texts : List String) : List String :=
  ((sortDesc (buildFreq (combinedTokens texts))).take 50).map Prod.fst

/-- `CompanyDataCollector.extract_industry_keywords` (lines 192-232):
pure computation over the record; always returns `True`. -/
def extract_industry_keywords (cd : CompanyData) : CompanyData × Bool :=
  ({ cd with industry_keywords := keywordsOfTexts (allTextOf cd) }, true)

/-! ## `find_competitors` -/

/-- Python's `repr` of one string, as produced for the keyword tokens:
single quotes, or double quotes when the string contains a single quote
but no double quote (escaping of mixed quotes or control characters is
not modelled; whitespace-split tokens contain neither). -/
def pyReprStr (s : String) : String :=
  if s.data.contains (Char.ofNat 39) && !(s.data.contains (Char.ofNat 34)) then
    (Char.ofNat 34).toString ++ s ++ (Char.ofNat 34).toString
  else (Char.ofNat 39).toString ++ s ++ (Char.ofNat 39).toString

/-- Python's `", ".join(l)`. -/
def pyJoinCommaSpace : List String → String
  | [] => ""
  | [s] => s
  | s :: rest => s ++ ", " ++ pyJoinCommaSpace rest

/-- Python's `str` of a list of strings, as interpolated by an f-string:
`str(['a', 'b']) = "['a', 'b']"`, `str([]) = "[]"`. -/
def pyReprStrList (l : List String) : String :=
  "[" ++ pyJoinCommaSpace (l.map pyReprStr) ++ "]"

/-- The query of line 246:
`f"{company_name} competitors in {industry_keywords[:3]}"` — the slice
of the keyword list is interpolated via its Python list `repr`. -/
def buildCompetitorQuery (name : String) (keywords : List String) : String :=
  name ++ " competitors in " ++ pyReprStrList (keywords.take 3)

/-- The relevance filter of line 264: `"competitors"` occurs in the
lower-cased snippet or title. -/
def competitorMarker (it : SearchItem) : Bool :=
  pyInStr "competitors" (pyLower (it.snippet.getD "")) ||
    pyInStr "competitors" (pyLower (it.title.getD ""))

/-- `CompanyDataCollector.find_competitors` (lines 234-275).  `search`
is the environment: the Custom Search outcome per query string.  A
non-200 response or a missing `items` key leaves `competitors` empty
and still returns `True`; an exception during the fetch is re-raised. -/
def find_competitors (name : String) (cd : CompanyData)
    (search : String → Except PyExc SearchResponse) : Except PyExc (CompanyData × Bool) :=
  match search (buildCompetitorQuery name cd.industry_keywords) with
  | .error e => .error e
  | .ok r =>
    let competitors :=
      if r.status = 200 then
        match r.items with
        | some items =>
          (items.filter competitorMarker).map (fun it =>
            { source := it.link.getD "", title := it.title.getD "",
              snippet := it.snippet.getD "" })
        | none => []
      else []
    .ok ({ cd with competitors := competitors }, true)

/-! ## `collect_all_company_data` -/

/-- The `results` dict of lines 280-286: one boolean per step. -/
structure StepStatus where
  google_search : Bool
  news : Bool
  website : Bool
  keywords : Bool
  competitors : Bool
deriving DecidableEq, Repr

/-- `CompanyDataCollector.collect_all_company_data` (lines 277-301).
The four vendor outcomes of the run (search response, news response,
per-URL document fetch, per-query competitor search) are the
environment arguments.  The dict literal evaluates its five values in
order, so an exception raised by any step propagates and the later
steps never run; otherwise the full status map plus the accumulated
record is produced.  (The JSON dump to disk is persistence plumbing and
is not modelled.) -/
def collect_all_company_data (name : String) (cd : CompanyData)
    (searchResp : Except PyExc SearchResponse) (newsResp : Except PyExc NewsResponse)
    (fetchDoc : String → Except PyExc Doc)
    (compSearch : String → Except PyExc SearchResponse) :
    Except PyExc (StepStatus × CompanyData) :=
  match fetch_google_search_results name cd searchResp with
  | .error e => .error e
  | .ok (cd1, s1) =>
    match fetch_news_articles cd1 newsResp with
    | .error e => .error e
    | .ok (cd2, s2) =>
      match scrape_company_website cd2 fetchDoc with
      | .error e => .error e
      | .ok (cd3, s3) =>
        match extract_industry_keywords cd3 with
        | (cd4, s4) =>
          match find_competitors name cd4 compSearch with
          | .error e => .error e
          | .ok (cd5, s5) =>
            .ok ({ google_search := s1, news := s2, website := s3,
                   keywords := s4, competitors := s5 }, cd5)

/-! ## `SocialMediaExtractor.collect_all_social_data` -/

/-- The per-platform fetchers, abstracted over their bodies: each
records success/failure as the boolean the `extract_*` method returns
(the mastodon fetcher additionally receives the instance argument). -/
structure SocialFetchers where
  twitter : String → Bool
  bluesky : String → Bool
  mastodon : String → String → Bool
  threads : String → Bool

/-- The `results` dict of lines 479-484, initialised to all-`False`. -/
structure SocialStatus where
  twitter : Bool
  bluesky : Bool
  mastodon : Bool
  threads : Bool
deriving DecidableEq, Repr

/-- Worker for Python's `s.split(sep)` with a one-character separator:
a split point at every occurrence, empty parts kept. -/
def splitOnCharAux (c : Char) : List Char → List Char → List String
  | [], acc => [acc.reverse.asString]
  | d :: ds, acc =>
    if d == c then acc.reverse.asString :: splitOnCharAux c ds []
    else splitOnCharAux c ds (d :: acc)

/-- Python's `s.split(c)` for a one-character separator: `"a@b" ↦
["a", "b"]`, `"" ↦ [""]`, `"@@" ↦ ["", "", ""]`. -/
def pySplitOnChar (c : Char) (s : String) : List String :=
  splitOnCharAux c s.data []

/-- The mastodon handle parsing of lines 492-499: split on `'@'`; with
more than two parts, `parts[1]` is the username and `parts[2]` the
instance; otherwise the whole handle is the username and the instance
keeps its default `"mastodon.social"`. -/
def mastodonDispatch (handle : String) : String × String :=
  match pySplitOnChar (Char.ofNat 64) handle with
  | _ :: u :: i :: _ => (u, i)
  | _ => (handle, "mastodon.social")

/-- `SocialMediaExtractor.collect_all_social_data` (lines 476-518): for
each platform, if the handle is truthy, call the fetcher and store its
boolean; otherwise the entry keeps its initial `False`.  (The JSON dump
to disk is persistence plumbing and is not modelled.) -/
def collect_all_social_data (f : SocialFetchers)
    (twitter_handle bluesky_handle mastodon_handle threads_handle : Option String) :
    SocialStatus :=
  let r0 : SocialStatus := { twitter := false, bluesky := false,
                             mastodon := false, threads := false }
  let r1 := if pyTruthy twitter_handle then
      { r0 with twitter := f.twitter (twitter_handle.getD "") } else r0
  let r2 := if pyTruthy bluesky_handle then
      { r1 with bluesky := f.bluesky (bluesky_handle.getD "") } else r1
  let mastodonArgs := mastodonDispatch (mastodon_handle.getD "")
  let r3 := if pyTruthy mastodon_handle then
      { r2 with mastodon := f.mastodon mastodonArgs.1 mastodonArgs.2 } else r2
  let r4 := if pyTruthy threads_handle then
      { r3 with threads := f.threads (threads_handle.getD "") } else r3
  r4

/-! ## Helper lemmas: social pipeline projections -/

theorem social_twitter_proj (f : SocialFetchers) (th bh mh thh : Option String) :
    (collect_all_social_data f th bh mh thh).twitter =
      if pyTruthy th then f.twitter (th.getD "") else false := by
  simp only [collect_all_social_data]
  by_cases h1 : pyTruthy th <;> by_cases h2 : pyTruthy bh <;>
    by_cases h3 : pyTruthy mh <;> by_cases h4 : pyTruthy thh <;>
    simp [h1, h2, h3, h4]

theorem social_bluesky_proj (f : SocialFetchers) (th bh mh thh : Option String) :
    (collect_all_social_data f th bh mh thh).bluesky =
      if pyTruthy bh then f.bluesky (bh.getD "") else false := by
  simp only [collect_all_social_data]
  by_cases h1 : pyTruthy th <;> by_cases h2 : pyTruthy bh <;>
    by_cases h3 : pyTruthy mh <;> by_cases h4 : pyTruthy thh <;>
    simp [h1, h2, h3, h4]

theorem social_mastodon_proj (f : SocialFetchers) (th bh mh thh : Option String) :
    (collect_all_social_data f th bh mh thh).mastodon =
      if pyTruthy mh then
        f.mastodon (mastodonDispatch (mh.getD "")).1 (mastodonDispatch (mh.getD "")).2
      else false := by
  simp only [collect_all_social_data]
  by_cases h1 : pyTruthy th <;> by_cases h2 : pyTruthy bh <;>
    by_cases h3 : pyTruthy mh <;> by_cases h4 : pyTruthy thh <;>
    simp [h1, h2, h3, h4]

theorem social_threads_proj (f : SocialFetchers) (th bh mh thh : Option String) :
    (collect_all_social_data f th bh mh thh).threads =
      if pyTruthy thh then f.threads (thh.getD "") else false := by
  simp only [collect_all_social_data]
  by_cases h1 : pyTruthy th <;> by_cases h2 : pyTruthy bh <;>
    by_cases h3 : pyTruthy mh <;> by_cases h4 : pyTruthy thh <;>
    simp [h1, h2, h3, h4]
theorem socialStatus_eq (a b : SocialStatus) (h1 : a.twitter = b.twitter)
    (h2 : a.bluesky = b.bluesky) (h3 : a.mastodon = b.mastodon)
    (h4 : a.threads = b.threads) : a = b := by
  cases a; cases b; simp_all

theorem social_fields (f : SocialFetchers) (th bh mh thh : Option String) :
    collect_all_social_data f th bh mh thh =
      { twitter := if pyTruthy th then f.twitter (th.getD "") else false
        bluesky := if pyTruthy bh then f.bluesky (bh.getD "") else false
        mastodon := if pyTruthy mh then
            f.mastodon (mastodonDispatch (mh.getD "")).1 (mastodonDispatch (mh.getD "")).2
          else false
        threads := if pyTruthy thh then f.threads (thh.getD "") else false } :=
  socialStatus_eq _ _ (social_twitter_proj f th bh mh thh) (social_bluesky_proj f th bh mh thh)
    (social_mastodon_proj f th bh mh thh) (social_threads_proj f th bh mh thh)

/-! ## Claim C10: mastodon handle parsing -/

/-- C10: for every mastodon handle passed to the Social Collection
Pipeline (a supplied handle is truthy, hence nonempty): if splitting the
handle on `'@'` yields more than 2 parts (as for `"@user@instance"`),
the mastodon fetcher is invoked with the part after the first `'@'` as
the username and the following part as the instance; otherwise the
entire handle string is passed as the username with the default instance
`"mastodon.social"` — so `"user@instance"` without a leading `'@'` is
not split and its instance part is ignored. -/
theorem claim_C10_mastodon_split (f : SocialFetchers) (th bh thh : Option String)
    (mh : String) (hmh : mh ≠ "") :
    (∀ p0 u inst rest, pySplitOnChar (Char.ofNat 64) mh = p0 :: u :: inst :: rest →
        (collect_all_social_data f th bh (some mh) thh).mastodon = f.mastodon u inst) ∧
    ((pySplitOnChar (Char.ofNat 64) mh).length ≤ 2 →
        (collect_all_social_data f th bh (some mh) thh).mastodon =
          f.mastodon mh "mastodon.social") := by
  have htr : pyTruthy (some mh) = true := by
    simp [pyTruthy, hmh]
  constructor
  · intro p0 u inst rest hsplit
    rw [social_mastodon_proj, htr, if_pos rfl]
    simp only [Option.getD_some, mastodonDispatch, hsplit]
  · intro hlen
    rw [social_mastodon_proj, htr, if_pos rfl]
    simp only [Option.getD_some, mastodonDispatch]
    match hsp : pySplitOnChar (Char.ofNat 64) mh with
    | [] => rfl
    | [_] => rfl
    | [_, _] => rfl
    | _ :: _ :: _ :: _ => rw [hsp] at hlen; simp at hlen

/-- A concrete set of social fetchers for the witnesses. -/
def witnessFetchers : SocialFetchers :=
  { twitter := fun h => h == "acme"
    bluesky := fun h => h == "acme.bsky.social"
    mastodon := fun u inst => u == "user" && inst == "inst"
    threads := fun h => h == "acme" }

/-- Witness for C10: on `"@user@inst"` the fetcher receives username
`"user"` and instance `"inst"`; on `"user@inst"` it receives the whole
handle with the default instance. -/
theorem claim_C10_witness :
    (collect_all_social_data witnessFetchers none none (some "@user@inst") none).mastodon =
      witnessFetchers.mastodon "user" "inst" ∧
    (collect_all_social_data witnessFetchers none none (some "user@inst") none).mastodon =
      witnessFetchers.mastodon "user@inst" "mastodon.social" :=
  ⟨(claim_C10_mastodon_split witnessFetchers none none none "@user@inst" (by decide)).1
      "" "user" "inst" [] (by decide),
   (claim_C10_mastodon_split witnessFetchers none none none "user@inst" (by decide)).2
      (by decide)⟩

/-! ## Claim C4: skipped platforms versus failed platforms -/

/-- Fetchers that all report failure, for the C4 counterexample. -/
def failingFetchers : SocialFetchers :=
  { twitter := fun _ => false, bluesky := fun _ => false,
    mastodon := fun _ _ => false, threads := fun _ => false }

/-- Counterexample to C4: the claim asserts that a skipped platform's
StepResult is a "not attempted" marker distinct from "failed", and that
an empty handle mapping yields a status map with no failed-platform
entries.  In the code both are the same boolean `False`: the run with no
handles produces a status map equal, entry for entry, to the run in
which every platform was attempted and its fetcher failed, and the
skipped twitter entry equals the attempted-and-failed twitter entry. -/
theorem claim_C4_counterexample :
    collect_all_social_data failingFetchers none none none none =
      collect_all_social_data failingFetchers
        (some "a") (some "b") (some "c") (some "d") ∧
    (collect_all_social_data failingFetchers none none none none).twitter =
      (collect_all_social_data failingFetchers (some "a") none none none).twitter := by
  decide

/-- C4 as amended: a platform with no (truthy) handle is skipped — its
fetcher is not invoked (the status map is unchanged when that platform's
fetcher is replaced by any other) and its entry keeps the initial
`false`, the same boolean that records a failed fetch; with an empty
handle mapping the whole status map is `false` on every platform. -/
theorem claim_C4_amended (f : SocialFetchers) (th bh mh thh : Option String) :
    (pyTruthy th = false → ∀ g, collect_all_social_data { f with twitter := g } th bh mh thh =
        collect_all_social_data f th bh mh thh ∧
        (collect_all_social_data f th bh mh thh).twitter = false) ∧
    (pyTruthy bh = false → ∀ g, collect_all_social_data { f with bluesky := g } th bh mh thh =
        collect_all_social_data f th bh mh thh ∧
        (collect_all_social_data f th bh mh thh).bluesky = false) ∧
    (pyTruthy mh = false → ∀ g, collect_all_social_data { f with mastodon := g } th bh mh thh =
        collect_all_social_data f th bh mh thh ∧
        (collect_all_social_data f th bh mh thh).mastodon = false) ∧
    (pyTruthy thh = false → ∀ g, collect_all_social_data { f with threads := g } th bh mh thh =
        collect_all_social_data f th bh mh thh ∧
        (collect_all_social_data f th bh mh thh).threads = false) ∧
    collect_all_social_data f none none none none =
      { twitter := false, bluesky := false, mastodon := false, threads := false } := by
  refine ⟨fun h g => ⟨?_, ?_⟩, fun h g => ⟨?_, ?_⟩, fun h g => ⟨?_, ?_⟩,
    fun h g => ⟨?_, ?_⟩, ?_⟩ <;>
    simp only [social_fields] <;> simp_all [pyTruthy]

/-- Witness for C4 (amended): with a bluesky handle supplied but no
twitter handle, replacing the twitter fetcher does not change the run,
the twitter entry is `false`, and the no-handles run is all-`false`. -/
theorem claim_C4_witness :
    (collect_all_social_data { witnessFetchers with twitter := fun _ => true }
        none (some "acme.bsky.social") none none =
      collect_all_social_data witnessFetchers none (some "acme.bsky.social") none none) ∧
    (collect_all_social_data witnessFetchers none (some "acme.bsky.social") none none).twitter =
      false ∧
    collect_all_social_data witnessFetchers none none none none =
      { twitter := false, bluesky := false, mastodon := false, threads := false } := by
  have h := claim_C4_amended witnessFetchers none (some "acme.bsky.social") none none
  have h2 := claim_C4_amended witnessFetchers none none none none
  exact ⟨(h.1 rfl (fun _ => true)).1, (h.1 rfl (fun _ => true)).2, h2.2.2.2.2⟩

/-! ## Claim C2: official-website adoption -/

theorem adoptOfficial_append (name : String) (xs ys : List SearchItem) (a : Option String) :
    adoptOfficial name (xs ++ ys) a = adoptOfficial name ys (adoptOfficial name xs a) := by
  simp [adoptOfficial, List.foldl_append]

theorem adoptOfficial_no_match (name : String) (l : List SearchItem) (a : Option String)
    (h : ∀ j ∈ l, displayLinkOverlap name j = false) :
    adoptOfficial name l a = a := by
  induction l generalizing a with
  | nil => rfl
  | cons x xs ih =>
    have hx := h x (by simp)
    simp only [adoptOfficial, List.foldl_cons, hx, if_neg (by simp [hx] : ¬displayLinkOverlap name x = true)]
    exact ih _ (fun j hj => h j (by simp [hj]))

/-- The `official_website` value of a pipeline-step result (`none` when
the step raised). -/
def officialOf (r : Except PyExc (CompanyData × Bool)) : Option String :=
  match r with
  | .ok (c, _) => c.basic_info.official_website
  | .error _ => none

/-- The initial record for the company `"Acme"`. -/
def cdAcme : CompanyData := initCompanyData "Acme" "a demo company" "2026-01-01T00:00:00"

/-- First matching search item for the C2 counterexample. -/
def cexItem1 : SearchItem := { displayLink := some "acme.com", link := some "https://one" }

/-- Second matching search item for the C2 counterexample. -/
def cexItem2 : SearchItem := { displayLink := some "acme.org", link := some "https://two" }

/-- Counterexample to C2: the claim says the FIRST search hit whose
display domain overlaps the company name is adopted and later matching
hits do not change the adopted URL.  With two matching hits the adopted
URL is the second hit's link, not the first's: the loop has no `break`,
so every matching hit overwrites the field and the LAST match wins. -/
theorem claim_C2_counterexample :
    displayLinkOverlap "Acme" cexItem1 = true ∧
    displayLinkOverlap "Acme" cexItem2 = true ∧
    cexItem1.link = some "https://one" ∧
    officialOf (fetch_google_search_results "Acme" cdAcme
        (.ok { status := 200, items := some [cexItem1, cexItem2] })) = some "https://two" ∧
    some "https://two" ≠ cexItem1.link := by
  decide

/-- C2 as amended: the URL adopted into `basic_info` is the link of the
LAST search hit whose display domain overlaps the company name
(case-insensitive substring match in either direction): every matching
hit overwrites the previously adopted URL, so a matching hit followed
only by non-matching hits determines the final value. -/
theorem claim_C2_amended (name : String) (cd : CompanyData) (l1 l2 : List SearchItem)
    (it : SearchItem) (hit : displayLinkOverlap name it = true)
    (hl2 : ∀ j ∈ l2, displayLinkOverlap name j = false) :
    ∃ cd', fetch_google_search_results name cd
        (.ok { status := 200, items := some (l1 ++ it :: l2) }) = .ok (cd', true) ∧
      cd'.basic_info.official_website = it.link := by
  refine ⟨_, rfl, ?_⟩
  show adoptOfficial name (l1 ++ it :: l2) cd.basic_info.official_website = it.link
  rw [adoptOfficial_append]
  show adoptOfficial name (it :: l2) _ = it.link
  simp only [adoptOfficial, List.foldl_cons, hit, if_pos rfl]
  exact adoptOfficial_no_match name l2 it.link hl2

/-- Witness for C2 (amended): a non-matching hit, then the matching hit
`cexItem1`, then a non-matching hit; the adopted URL is `cexItem1`'s. -/
theorem claim_C2_witness :
    ∃ cd', fetch_google_search_results "Acme" cdAcme
        (.ok { status := 200,
               items := some ([{ displayLink := some "nytimes.com", link := some "https://n" }] ++
                 cexItem1 :: [{ displayLink := some "wikipedia.org", link := some "https://w" }]) }) =
        .ok (cd', true) ∧
      cd'.basic_info.official_website = cexItem1.link :=
  claim_C2_amended "Acme" cdAcme
    [{ displayLink := some "nytimes.com", link := some "https://n" }]
    [{ displayLink := some "wikipedia.org", link := some "https://w" }]
    cexItem1 (by decide) (by decide)

/-! ## Claims C6 and C7: the fallback resolver and the quality bar -/

/-- Whether candidate `u` "passes": its fetch returns a document whose
text is strictly longer than 100 characters (the acceptance test of
lines 155 and 178); `none` covers both a raising fetch and a
quality-bar miss. -/
def candOk (fetch : String → Except PyExc Doc) (u : String) : Option Doc :=
  match fetch u with
  | .error _ => none
  | .ok d => if 100 < d.text.length then some d else none

theorem tryCandidates_eq_none (fetch : String → Except PyExc Doc) (us : List String)
    (h : ∀ u ∈ us, candOk fetch u = none) : tryCandidates fetch us = none := by
  induction us with
  | nil => rfl
  | cons u rest ih =>
    have hu := h u (by simp)
    have hrest := ih (fun v hv => h v (by simp [hv]))
    simp only [tryCandidates]
    cases hfu : fetch u with
    | error e => simpa using hrest
    | ok d =>
      simp only [candOk, hfu] at hu
      by_cases hlen : 100 < d.text.length
      · simp [hlen] at hu
      · simp only [if_neg hlen]
        exact hrest

theorem tryCandidates_first (fetch : String → Except PyExc Doc) (pre : List String)
    (u : String) (post : List String) (d : Doc)
    (hpre : ∀ v ∈ pre, candOk fetch v = none) (hu : candOk fetch u = some d) :
    tryCandidates fetch (pre ++ u :: post) = some d := by
  induction pre with
  | nil =>
    simp only [List.nil_append, tryCandidates]
    cases hfu : fetch u with
    | error e => simp only [candOk, hfu] at hu; exact absurd hu (by simp)
    | ok d0 =>
      simp only [candOk, hfu] at hu
      by_cases hlen : 100 < d0.text.length
      · simp only [if_pos hlen]
        simpa [hlen] using hu
      · simp [hlen] at hu
  | cons v rest ih =>
    have hv := hpre v (by simp)
    have ih2 := ih (fun w hw => hpre w (by simp [hw]))
    simp only [List.cons_append, tryCandidates]
    cases hfv : fetch v with
    | error e => simpa using ih2
    | ok d0 =>
      simp only [candOk, hfv] at hv
      by_cases hlen : 100 < d0.text.length
      · simp [hlen] at hv
      · simp only [if_neg hlen]
        simpa using ih2

/-- C7 as amended: the fallback loops return the first candidate, in
list order, whose fetch succeeds with text STRICTLY longer than 100
characters (the code tests `len(text) > 100`, not `>= 100`); a
candidate whose fetch raises or whose text is too short is skipped
silently, and when every candidate fails the resolver yields absence.
Since the returned document is the first passing one, the resolver never
returns a later candidate while an earlier one passes the `> 100` bar. -/
theorem claim_C7_first_match (fetch : String → Except PyExc Doc) :
    (∀ pre u post d, (∀ v ∈ pre, candOk fetch v = none) → candOk fetch u = some d →
        tryCandidates fetch (pre ++ u :: post) = some d) ∧
    (∀ us, (∀ u ∈ us, candOk fetch u = none) → tryCandidates fetch us = none) :=
  ⟨fun pre u post d hpre hu => tryCandidates_first fetch pre u post d hpre hu,
   fun us h => tryCandidates_eq_none fetch us h⟩

/-- A 100-character document (passes the claimed `>= 100` bar but fails
the code's `> 100` test). -/
def doc100 : Doc := { title := "d100", text := (List.replicate 100 (Char.ofNat 120)).asString }

/-- A 101-character document (passes the code's `> 100` test). -/
def doc101 : Doc := { title := "d101", text := (List.replicate 101 (Char.ofNat 120)).asString }

/-- A fetch environment where candidate `"a"` parses to exactly 100
characters and every other candidate to 101 characters. -/
def boundaryFetch : String → Except PyExc Doc :=
  fun u => if u == "a" then .ok doc100 else .ok doc101

/-- Counterexample to C7: the claim states the resolver's default
quality check is text length >= 100, and that it never returns a later
candidate while an earlier one would have passed.  With an earlier
candidate of exactly 100 characters (which passes the claimed bar) and
a later one of 101, the code returns the later candidate: its test is
`len(text) > 100`, so the 100-character document is rejected. -/
theorem claim_C7_counterexample :
    boundaryFetch "a" = .ok doc100 ∧
    100 ≤ doc100.text.length ∧
    tryCandidates boundaryFetch ["a", "b"] = some doc101 ∧
    some doc101 ≠ some doc100 := by
  refine ⟨rfl, by decide, by decide, by decide⟩

/-- Fetch environment for the C7 witness: the first candidate raises,
the second misses the quality bar, third and fourth pass. -/
def witnessFetch7 : String → Except PyExc Doc :=
  fun u =>
    if u == "u1" then .error { msg := "connection refused" }
    else if u == "u2" then .ok { title := "short", text := "tiny" }
    else .ok doc101

/-- Witness for C7 (amended): with a raising candidate and a too-short
candidate before the first passing one, the resolver returns the first
passing candidate's document. -/
theorem claim_C7_witness :
    tryCandidates witnessFetch7 ["u1", "u2", "u3", "u4"] = some doc101 :=
  (claim_C7_first_match witnessFetch7).1 ["u1", "u2"] "u3" ["u4"] doc101
    (by decide) (by decide)

theorem tryCandidates_quality (fetch : String → Except PyExc Doc) (us : List String) (d : Doc)
    (h : tryCandidates fetch us = some d) : 100 < d.text.length := by
  induction us with
  | nil => simp [tryCandidates] at h
  | cons u rest ih =>
    simp only [tryCandidates] at h
    cases hfu : fetch u with
    | error e =>
      simp only [hfu] at h
      exact ih h
    | ok d0 =>
      simp only [hfu] at h
      by_cases hlen : 100 < d0.text.length
      · rw [if_pos hlen] at h
        obtain rfl : d0 = d := by simpa using h
        exact hlen
      · rw [if_neg hlen] at h
        exact ih h

/-- C6 as amended: a section stored under `"about"` or `"products"` has
text STRICTLY longer than 100 characters (the code tests
`len(text) > 100`), while the `"main"` section is stored with no length
requirement at all: starting from a record with no about/products
section, after a completed scrape any about/products section present
passes the `> 100` bar. -/
theorem claim_C6_amended (cd : CompanyData) (fetch : String → Except PyExc Doc)
    (cd' : CompanyData) (b : Bool)
    (hab : cd.website_content_about = none)
    (hpr : cd.website_content_products = none)
    (h : scrape_company_website cd fetch = .ok (cd', b)) :
    cd'.website_content_about.elim True (fun s => 100 < s.text.length) ∧
    cd'.website_content_products.elim True (fun s => 100 < s.text.length) := by
  unfold scrape_company_website at h
  by_cases ht : pyTruthy cd.basic_info.official_website
  · rw [if_pos ht] at h
    cases hfu : fetch (cd.basic_info.official_website.getD "") with
    | error e =>
      rw [hfu] at h
      exact Except.noConfusion h
    | ok mainDoc =>
      simp only [hfu] at h
      cases hab2 : tryCandidates fetch (about_urls (cd.basic_info.official_website.getD "")) with
      | some dA =>
        cases hpr2 : tryCandidates fetch (product_urls (cd.basic_info.official_website.getD "")) with
        | some dP =>
          simp only [hab2, hpr2, Except.ok.injEq, Prod.mk.injEq] at h
          obtain ⟨hcd, -⟩ := h
          subst hcd
          exact ⟨tryCandidates_quality fetch _ dA hab2, tryCandidates_quality fetch _ dP hpr2⟩
        | none =>
          simp only [hab2, hpr2, Except.ok.injEq, Prod.mk.injEq] at h
          obtain ⟨hcd, -⟩ := h
          subst hcd
          exact ⟨tryCandidates_quality fetch _ dA hab2, by simp [hpr]⟩
      | none =>
        cases hpr2 : tryCandidates fetch (product_urls (cd.basic_info.official_website.getD "")) with
        | some dP =>
          simp only [hab2, hpr2, Except.ok.injEq, Prod.mk.injEq] at h
          obtain ⟨hcd, -⟩ := h
          subst hcd
          exact ⟨by simp [hab], tryCandidates_quality fetch _ dP hpr2⟩
        | none =>
          simp only [hab2, hpr2, Except.ok.injEq, Prod.mk.injEq] at h
          obtain ⟨hcd, -⟩ := h
          subst hcd
          exact ⟨by simp [hab], by simp [hpr]⟩
  · rw [if_neg ht] at h
    obtain ⟨hcd, -⟩ : cd = cd' ∧ false = b := by simpa using h
    subst hcd
    exact ⟨by simp [hab], by simp [hpr]⟩

/-- `cdAcme` with an official website resolved. -/
def cdSite : CompanyData :=
  { cdAcme with basic_info := { cdAcme.basic_info with official_website := some "http://acme.com" } }

/-- A fetch environment whose every document is 4 characters long. -/
def tinyFetch : String → Except PyExc Doc :=
  fun _ => .ok { title := "T", text := "tiny", top_image := "img" }

/-- The text length of the stored `"main"` section of a scrape result. -/
def mainTextLenOf (r : Except PyExc (CompanyData × Bool)) : Option Nat :=
  match r with
  | .ok (c, _) => c.website_content_main.map (fun s => s.text.length)
  | .error _ => none

/-- Counterexample to C6: the claim says every WebSection stored into
`website_content` (under any of the keys main/about/products) has text
of length at least 100 at acceptance.  The `"main"` section is stored
with no length check at all: a 4-character main page is accepted. -/
theorem claim_C6_counterexample :
    mainTextLenOf (scrape_company_website cdSite tinyFetch) = some 4 ∧ ¬ (100 ≤ 4) := by
  decide

/-- Fetch environment for the C6 witness: the about page parses to 101
characters, everything else to 4 characters. -/
def goodFetch : String → Except PyExc Doc :=
  fun u =>
    if u == "http://acme.com/about" then
      .ok { title := "About Acme", text := (List.replicate 101 (Char.ofNat 121)).asString }
    else .ok { title := "Main", text := "tiny" }

/-- The record produced by scraping `cdSite` through `goodFetch`. -/
def cdGood : CompanyData :=
  match scrape_company_website cdSite goodFetch with
  | .ok (c, _) => c
  | .error _ => cdSite

/-- Witness for C6 (amended): a completed scrape whose stored about
section indeed has more than 100 characters of text. -/
theorem claim_C6_witness :
    scrape_company_website cdSite goodFetch = .ok (cdGood, true) ∧
    cdGood.website_content_about.elim True (fun s => 100 < s.text.length) ∧
    cdGood.website_content_products.elim True (fun s => 100 < s.text.length) := by
  have h : scrape_company_website cdSite goodFetch = .ok (cdGood, true) := by decide
  have h2 := claim_C6_amended cdSite goodFetch cdGood true (by decide) (by decide) h
  exact ⟨h, h2.1, h2.2⟩

/-! ## Claim C3: competitor search failure handling -/

/-- Counterexample to C3: the claim says a failing search call (for any
reason, including a network/vendor error raised during the fetch) makes
`find_competitors` return an empty competitor sequence without letting
the failure propagate.  When the fetch raises, the method's handler
wraps the exception as `SocialMediaAgentException` and re-raises it: the
error propagates to the caller and no result is returned. -/
theorem claim_C3_counterexample :
    find_competitors "Acme" cdAcme (fun _ => .error { msg := "network down" }) =
      .error { msg := "network down" } := by
  decide

/-- C3 as amended: when the single search call RETURNS (with any HTTP
status), `find_competitors` degrades a non-200 response to an empty
competitor list and still reports success; but when the call RAISES, the
exception is wrapped as `SocialMediaAgentException` and re-raised, so a
network/vendor error during the fetch does propagate out of the
component. -/
theorem claim_C3_amended (name : String) (cd : CompanyData)
    (search : String → Except PyExc SearchResponse) :
    (∀ r, search (buildCompetitorQuery name cd.industry_keywords) = .ok r → r.status ≠ 200 →
        find_competitors name cd search = .ok ({ cd with competitors := [] }, true)) ∧
    (∀ e, search (buildCompetitorQuery name cd.industry_keywords) = .error e →
        find_competitors name cd search = .error e) := by
  constructor
  · intro r hr hstat
    unfold find_competitors
    rw [hr]
    simp [hstat]
  · intro e he
    unfold find_competitors
    rw [he]

/-- Record with some extracted keywords, for the C3/C5 witnesses. -/
def cdKeywords : CompanyData := { cdAcme with industry_keywords := ["banking", "finance", "india", "loans"] }

/-- A search environment answering every query with HTTP 500. -/
def search500 : String → Except PyExc SearchResponse :=
  fun _ => .ok { status := 500 }

/-- Witness for C3 (amended): a 500 response yields an empty competitor
list and a `True` step result, with no exception. -/
theorem claim_C3_witness :
    find_competitors "Acme" cdKeywords search500 =
      .ok ({ cdKeywords with competitors := [] }, true) :=
  (claim_C3_amended "Acme" cdKeywords search500).1 { status := 500 } rfl (by decide)

/-! ## Claim C5: the competitor query -/

/-- Counterexample to C5: the claim says that with an empty keyword list
the query carries no keyword suffix, i.e. is only the company name.  The
code interpolates the Python list slice into the f-string, so the empty
list still contributes the suffix `" competitors in []"`; the probing
environment below errors on every query except the suffixed one, and
the run succeeds, showing the single call used the suffixed query. -/
theorem claim_C5_counterexample :
    buildCompetitorQuery "Acme" [] = "Acme competitors in []" ∧
    "Acme competitors in []" ≠ "Acme" ∧
    find_competitors "Acme" cdAcme
        (fun q => if q == "Acme competitors in []" then .ok { status := 500 }
          else .error { msg := "unexpected query" }) =
      .ok ({ cdAcme with competitors := [] }, true) := by
  refine ⟨by decide, by decide, by decide⟩

/-- C5 as amended: the competitor query is the company name followed by
the literal `" competitors in "` and the Python `repr` of the list of
the first 3 keywords (fewer if fewer are available); the empty keyword
list does not raise and yields the suffix `" competitors in []"` rather
than no suffix.  Only the built query is consulted: two environments
that agree on it give identical results. -/
theorem claim_C5_amended (name : String) (cd : CompanyData)
    (f g : String → Except PyExc SearchResponse) :
    buildCompetitorQuery name cd.industry_keywords =
      name ++ " competitors in " ++ pyReprStrList (cd.industry_keywords.take 3) ∧
    (cd.industry_keywords = [] →
      buildCompetitorQuery name cd.industry_keywords = name ++ " competitors in []") ∧
    (f (buildCompetitorQuery name cd.industry_keywords) =
        g (buildCompetitorQuery name cd.industry_keywords) →
      find_competitors name cd f = find_competitors name cd g) := by
  refine ⟨rfl, ?_, ?_⟩
  · intro hk
    rw [hk]
    show name ++ " competitors in " ++ pyReprStrList (List.take 3 []) = name ++ " competitors in []"
    rw [String.append_assoc]
    exact congrArg (fun t => name ++ t) (by decide)
  · intro hfg
    unfold find_competitors
    rw [hfg]

/-- Witness for C5 (amended): with four keywords the query carries the
repr of the first three, and swapping the environment for one that
agrees on that query leaves the result unchanged. -/
theorem claim_C5_witness :
    buildCompetitorQuery "Acme" cdKeywords.industry_keywords =
      "Acme" ++ " competitors in " ++ pyReprStrList ["banking", "finance", "india"] ∧
    find_competitors "Acme" cdKeywords search500 =
      find_competitors "Acme" cdKeywords (fun _ => .ok { status := 500 }) := by
  have h := claim_C5_amended "Acme" cdKeywords search500 (fun _ => .ok { status := 500 })
  exact ⟨by rw [h.1]; decide, h.2.2 rfl⟩

/-! ## Claim C9: assembling the Keyword Extractor input from news -/

/-- A NewsItem with `content=null` and `description="X is growing"`. -/
def newsGrow : NewsItem := { content := none, description := some "X is growing" }

/-- A NewsItem with `content="X launched Y"` and `description=null`. -/
def newsLaunch : NewsItem := { content := some "X launched Y", description := none }

/-- The record of the C9 scenario: three `newsGrow` items plus one
`newsLaunch` item and no website content. -/
def cdNewsScenario : CompanyData :=
  { cdAcme with news := [newsGrow, newsGrow, newsGrow, newsLaunch] }

/-- Counterexample to C9: the claim says the assembled text list has
exactly 2 entries, not 4.  Each of the three articles contributes its
description and the fourth its content, so the list has exactly 4
entries (and the third conjunct: never 2). -/
theorem claim_C9_counterexample :
    (allTextOf cdNewsScenario).length = 4 ∧ ¬ ((allTextOf cdNewsScenario).length = 2) := by
  decide

/-- C9 as amended: in the scenario of 3 NewsItems with `content=null,
description="X is growing"` plus 1 NewsItem with `content="X launched
Y", description=null`, the text list assembled as Keyword Extractor
input (null fields excluded before any concatenation) has exactly 4
entries — one per non-null field — and contains no null: no token
`"none"` (Python's stringified `None`, lower-cased) reaches the token
stream. -/
theorem claim_C9_text_assembly :
    allTextOf cdNewsScenario =
      ["X is growing", "X is growing", "X is growing", "X launched Y"] ∧
    (allTextOf cdNewsScenario).length = 4 ∧
    ¬ ("none" ∈ combinedTokens (allTextOf cdNewsScenario)) := by
  decide


/-! ## Claim C1: step failure and the pipeline -/

theorem fetch_google_ok (name : String) (cd : CompanyData) (sr : SearchResponse) :
    ∃ out, fetch_google_search_results name cd (.ok sr) = .ok out := by
  simp only [fetch_google_search_results]
  by_cases h : sr.status = 200
  · rw [if_pos h]
    cases sr.items with
    | some items => exact ⟨_, rfl⟩
    | none => exact ⟨_, rfl⟩
  · rw [if_neg h]
    exact ⟨_, rfl⟩

theorem fetch_news_fail (cd : CompanyData) (r : NewsResponse)
    (h : ¬(r.status = 200 ∧ r.bodyStatus = "ok")) :
    fetch_news_articles cd (.ok r) = .ok (cd, false) := by
  simp only [fetch_news_articles]
  by_cases h1 : r.status = 200
  · rw [if_pos h1, if_neg (fun h2 => h ⟨h1, h2⟩)]
  · rw [if_neg h1]

theorem fetch_news_shape (cd : CompanyData) (r : NewsResponse) :
    ∃ cd' b, fetch_news_articles cd (.ok r) = .ok (cd', b) ∧ cd'.basic_info = cd.basic_info := by
  simp only [fetch_news_articles]
  by_cases h1 : r.status = 200
  · rw [if_pos h1]
    by_cases h2 : r.bodyStatus = "ok"
    · rw [if_pos h2]
      exact ⟨_, _, rfl, rfl⟩
    · rw [if_neg h2]
      exact ⟨_, _, rfl, rfl⟩
  · rw [if_neg h1]
    exact ⟨_, _, rfl, rfl⟩

theorem scrape_shape (cd : CompanyData) (fetch : String → Except PyExc Doc)
    (hdoc : ∀ u, ∃ d, fetch u = .ok d) :
    ∃ c, scrape_company_website cd fetch =
      .ok (c, pyTruthy cd.basic_info.official_website) := by
  unfold scrape_company_website
  by_cases ht : pyTruthy cd.basic_info.official_website = true
  · obtain ⟨d, hd⟩ := hdoc (cd.basic_info.official_website.getD "")
    rw [if_pos ht, hd, ht]
    exact ⟨_, rfl⟩
  · have ht' : pyTruthy cd.basic_info.official_website = false := by
      simpa using ht
    rw [if_neg ht, ht']
    exact ⟨_, rfl⟩

theorem find_comp_shape (name : String) (cd : CompanyData)
    (cs : String → Except PyExc SearchResponse)
    (hcs : ∀ q, ∃ rr, cs q = .ok rr) :
    ∃ c, find_competitors name cd cs = .ok (c, true) := by
  obtain ⟨rr, hrr⟩ := hcs (buildCompetitorQuery name cd.industry_keywords)
  unfold find_competitors
  rw [hrr]
  exact ⟨_, rfl⟩

/-- The document fetch used by the C1 scenarios: every URL parses. -/
def docFetchTiny : String → Except PyExc Doc :=
  fun _ => .ok { title := "T", text := "tiny" }

/-- The competitor search used by the C1 scenarios: every query gets a
200 response with no items. -/
def compSearch200 : String → Except PyExc SearchResponse :=
  fun _ => .ok { status := 200 }

/-- Counterexample to C1: the claim says a failing News fetch does not
halt the pipeline — the later steps still run and a complete StepResult
map is produced.  When the News fetch raises (a network/vendor error),
`fetch_news_articles` wraps and re-raises it, the dict literal in
`collect_all_company_data` aborts, and the run produces no StepResult
map at all: the pipeline result is the propagated exception. -/
theorem claim_C1_counterexample :
    collect_all_company_data "Acme" cdAcme (.ok { status := 200, items := some [cexItem1] })
        (.error { msg := "news fetch raised" }) docFetchTiny compSearch200 =
      .error { msg := "news fetch raised" } := by
  decide

/-- C1 as amended: a News step whose fetch RETURNS an unsuccessful
response (non-200 status, or a body status other than `"ok"`) sets the
news StepResult to `false` and the pipeline continues: provided the
remaining vendor calls return rather than raise, the run completes with
a full StepResult map (keywords and competitors `true`), and the Search
and Website StepResults are what they would be under any other returned
News response.  A News fetch that RAISES, by contrast, halts the
pipeline (see the counterexample). -/
theorem claim_C1_amended (name : String) (cd : CompanyData)
    (sr : SearchResponse) (r : NewsResponse)
    (fetchDoc : String → Except PyExc Doc)
    (compSearch : String → Except PyExc SearchResponse)
    (hfail : ¬(r.status = 200 ∧ r.bodyStatus = "ok"))
    (hdoc : ∀ u, ∃ d, fetchDoc u = .ok d)
    (hcs : ∀ q, ∃ rr, compSearch q = .ok rr) :
    ∃ st cd', collect_all_company_data name cd (.ok sr) (.ok r) fetchDoc compSearch =
        .ok (st, cd') ∧
      st.news = false ∧ st.keywords = true ∧ st.competitors = true ∧
      (∀ r2 : NewsResponse, ∃ st2 cd2,
        collect_all_company_data name cd (.ok sr) (.ok r2) fetchDoc compSearch =
          .ok (st2, cd2) ∧
        st2.google_search = st.google_search ∧ st2.website = st.website) := by
  obtain ⟨⟨cd1, s1⟩, h1⟩ := fetch_google_ok name cd sr
  have h2 := fetch_news_fail cd1 r hfail
  obtain ⟨c3, h3⟩ := scrape_shape cd1 fetchDoc hdoc
  obtain ⟨c5, h5⟩ := find_comp_shape name (extract_industry_keywords c3).1 compSearch hcs
  simp only [extract_industry_keywords] at h5
  have hA : collect_all_company_data name cd (.ok sr) (.ok r) fetchDoc compSearch =
      .ok ({ google_search := s1, news := false,
             website := pyTruthy cd1.basic_info.official_website,
             keywords := true, competitors := true }, c5) := by
    simp only [collect_all_company_data, h1, h2, h3, extract_industry_keywords, h5]
  refine ⟨_, _, hA, rfl, rfl, rfl, ?_⟩
  intro r2
  obtain ⟨cd2', b2, hB2, hbi⟩ := fetch_news_shape cd1 r2
  obtain ⟨c3', h3'⟩ := scrape_shape cd2' fetchDoc hdoc
  obtain ⟨c5', h5'⟩ := find_comp_shape name (extract_industry_keywords c3').1 compSearch hcs
  simp only [extract_industry_keywords] at h5'
  have hB : collect_all_company_data name cd (.ok sr) (.ok r2) fetchDoc compSearch =
      .ok ({ google_search := s1, news := b2,
             website := pyTruthy cd2'.basic_info.official_website,
             keywords := true, competitors := true }, c5') := by
    simp only [collect_all_company_data, h1, hB2, h3', extract_industry_keywords, h5']
  refine ⟨_, _, hB, rfl, ?_⟩
  show pyTruthy cd2'.basic_info.official_website = pyTruthy cd1.basic_info.official_website
  rw [hbi]

/-- Witness for C1 (amended): with a non-200 News response the pipeline
completes with a full StepResult map whose news entry is `false`. -/
theorem claim_C1_witness :
    ∃ st cd', collect_all_company_data "Acme" cdAcme
        (.ok { status := 200, items := some [cexItem1] })
        (.ok { status := 500, bodyStatus := "ok", articles := [] })
        docFetchTiny compSearch200 = .ok (st, cd') ∧
      st.news = false ∧ st.keywords = true ∧ st.competitors = true ∧
      (∀ r2 : NewsResponse, ∃ st2 cd2,
        collect_all_company_data "Acme" cdAcme
            (.ok { status := 200, items := some [cexItem1] }) (.ok r2)
            docFetchTiny compSearch200 = .ok (st2, cd2) ∧
        st2.google_search = st.google_search ∧ st2.website = st.website) :=
  claim_C1_amended "Acme" cdAcme { status := 200, items := some [cexItem1] }
    { status := 500, bodyStatus := "ok", articles := [] } docFetchTiny compSearch200
    (by decide) (fun u => ⟨{ title := "T", text := "tiny" }, rfl⟩)
    (fun q => ⟨{ status := 200 }, rfl⟩)

/-! ## Claim C8: permutation invariance of the keyword frequencies -/

theorem splitWsAux_sep (b : List Char) : ∀ (a acc : List Char),
    splitWsAux (a ++ (Char.ofNat 32) :: b) acc = splitWsAux a acc ++ splitWsAux b [] := by
  intro a
  induction a with
  | nil =>
    intro acc
    by_cases h : acc.isEmpty
    · simp [splitWsAux, h]
    · simp [splitWsAux, h]
  | cons c cs ih =>
    intro acc
    simp only [List.cons_append, splitWsAux]
    by_cases hw : c.isWhitespace
    · by_cases ha : acc.isEmpty
      · simp [hw, ha, ih]
      · simp [hw, ha, ih]
    · simp [hw, ih]

/-- The tokens one text contributes to the combined token stream. -/
def tokensOfText (s : String) : List (List Char) :=
  splitWsAux (s.data.map Char.toLower) []

theorem splitWs_join (texts : List String) :
    splitWsAux ((pyJoinSpace texts).data.map Char.toLower) [] =
      texts.flatMap tokensOfText := by
  induction texts with
  | nil => rfl
  | cons s rest ih =>
    cases rest with
    | nil => simp [pyJoinSpace, tokensOfText]
    | cons t ts =>
      have hstep : pyJoinSpace (s :: t :: ts) = s ++ " " ++ pyJoinSpace (t :: ts) := rfl
      rw [hstep]
      have hdata : (s ++ " " ++ pyJoinSpace (t :: ts)).data =
          s.data ++ (Char.ofNat 32) :: (pyJoinSpace (t :: ts)).data := by
        have hspace : (" " : String).data = [Char.ofNat 32] := by decide
        rw [String.data_append, String.data_append, hspace, List.append_assoc,
          List.singleton_append]
      rw [hdata]
      have hmap : (s.data ++ (Char.ofNat 32) :: (pyJoinSpace (t :: ts)).data).map Char.toLower =
          s.data.map Char.toLower ++ (Char.ofNat 32) :: (pyJoinSpace (t :: ts)).data.map Char.toLower := by
        simp
      rw [hmap, splitWsAux_sep, ih]
      rfl

theorem combinedTokens_flatMap (texts : List String) :
    combinedTokens texts = (texts.flatMap tokensOfText).map List.asString := by
  show (splitWsAux ((pyJoinSpace texts).data.map Char.toLower) []).map List.asString = _
  rw [splitWs_join]

theorem lookupFreq_map_incr_ne (t w : String) (hne : t ≠ w) (f : List (String × Nat)) :
    lookupFreq (f.map (fun p => if p.1 == t then (p.1, p.2 + 1) else p)) w = lookupFreq f w := by
  induction f with
  | nil => rfl
  | cons p rest ih =>
    simp only [beq_iff_eq] at ih
    simp only [List.map_cons, lookupFreq, beq_iff_eq]
    by_cases hpt : p.1 = t
    · have hpw : ¬ p.1 = w := fun hh => hne (hpt ▸ hh)
      have hwt : ¬ (w = t) := fun hh => hne hh.symm
      simp [hpt, hpw, hne, hwt, ih]
    · by_cases hpw : p.1 = w
      · have hwt : ¬ (w = t) := fun hh => hne hh.symm
        simp [hpt, hpw, hwt, ih]
      · simp [hpt, hpw, ih]

theorem lookupFreq_map_incr_eq (t : String) (f : List (String × Nat))
    (hmem : f.any (fun p => p.1 == t) = true) :
    lookupFreq (f.map (fun p => if p.1 == t then (p.1, p.2 + 1) else p)) t =
      lookupFreq f t + 1 := by
  induction f with
  | nil => simp at hmem
  | cons p rest ih =>
    simp only [beq_iff_eq] at ih
    by_cases hpt : p.1 = t
    · simp [List.map_cons, lookupFreq, hpt]
    · have hmem' : rest.any (fun q => q.1 == t) = true := by
        simp only [List.any_cons, Bool.or_eq_true, beq_iff_eq] at hmem
        exact hmem.resolve_left hpt
      simp [List.map_cons, lookupFreq, hpt, beq_iff_eq, ih hmem']

theorem lookupFreq_append_of_no_key (f g : List (String × Nat)) (w : String)
    (h : f.any (fun p => p.1 == w) = false) :
    lookupFreq (f ++ g) w = lookupFreq g w := by
  induction f with
  | nil => rfl
  | cons p rest ih =>
    simp only [List.any_cons, Bool.or_eq_false_iff, beq_eq_false_iff_ne, ne_eq] at h
    simp only [List.cons_append, lookupFreq]
    rw [if_neg h.1]
    exact ih (by simp only [List.any_eq_false] at h ⊢; exact h.2)

theorem lookupFreq_append_of_key (f g : List (String × Nat)) (w : String)
    (h : f.any (fun p => p.1 == w) = true) :
    lookupFreq (f ++ g) w = lookupFreq f w := by
  induction f with
  | nil => simp at h
  | cons p rest ih =>
    simp only [List.cons_append, lookupFreq]
    by_cases hpw : p.1 = w
    · rw [if_pos hpw, if_pos hpw]
    · have h' : rest.any (fun q => q.1 == w) = true := by
        simp only [List.any_cons, Bool.or_eq_true, beq_iff_eq] at h
        exact h.resolve_left hpw
      rw [if_neg hpw, if_neg hpw]
      exact ih h'

theorem lookupFreq_of_no_key (f : List (String × Nat)) (w : String)
    (h : f.any (fun p => p.1 == w) = false) :
    lookupFreq f w = 0 := by
  induction f with
  | nil => rfl
  | cons p rest ih =>
    simp only [List.any_cons, Bool.or_eq_false_iff, beq_eq_false_iff_ne, ne_eq] at h
    simp only [lookupFreq]
    rw [if_neg h.1]
    exact ih (by simp only [List.any_eq_false] at h ⊢; exact h.2)

theorem lookupFreq_bump (f : List (String × Nat)) (t w : String) :
    lookupFreq (bump f t) w = lookupFreq f w + (if t = w then 1 else 0) := by
  unfold bump
  by_cases hmem : f.any (fun p => p.1 == t) = true
  · rw [if_pos hmem]
    by_cases htw : t = w
    · subst htw
      rw [lookupFreq_map_incr_eq t f hmem, if_pos rfl]
    · rw [lookupFreq_map_incr_ne t w htw f, if_neg htw]
      omega
  · have hmem' : f.any (fun p => p.1 == t) = false := by
      simp only [Bool.not_eq_true] at hmem
      exact hmem
    rw [if_neg hmem]
    by_cases htw : t = w
    · subst htw
      rw [lookupFreq_append_of_no_key f _ t hmem', lookupFreq_of_no_key f t hmem',
        if_pos rfl]
      simp [lookupFreq]
    · by_cases hkw : f.any (fun p => p.1 == w) = true
      · rw [lookupFreq_append_of_key f _ w hkw, if_neg htw]
        omega
      · have hkw' : f.any (fun p => p.1 == w) = false := by
          simp only [Bool.not_eq_true] at hkw
          exact hkw
        rw [lookupFreq_append_of_no_key f _ w hkw', lookupFreq_of_no_key f w hkw',
          if_neg htw]
        simp [lookupFreq, htw]

theorem lookupFreq_buildFreq_aux (toks : List String) (acc : List (String × Nat)) (w : String) :
    lookupFreq (toks.foldl (fun f x => if keepWord x then bump f x else f) acc) w =
      lookupFreq acc w + (toks.filter keepWord).count w := by
  induction toks generalizing acc with
  | nil => simp
  | cons x rest ih =>
    simp only [List.foldl_cons, List.filter_cons]
    by_cases hk : keepWord x = true
    · rw [if_pos hk, if_pos hk, ih (bump acc x), lookupFreq_bump]
      by_cases hxw : x = w
      · subst hxw
        simp [List.count_cons]
        omega
      · simp [List.count_cons, hxw]
    · rw [if_neg hk, if_neg hk, ih acc]

theorem lookupFreq_buildFreq (toks : List String) (w : String) :
    lookupFreq (buildFreq toks) w = (toks.filter keepWord).count w := by
  have h := lookupFreq_buildFreq_aux toks [] w
  simpa [buildFreq, lookupFreq] using h

/-- C8 as amended: permuting the Keyword Extractor's input texts leaves
every token's frequency count unchanged — per-token frequency counting
is order-independent.  The SET of top-50 keywords, however, is not
always preserved (see the counterexample): when equal-frequency tokens
straddle the top-50 cutoff, which of them survive depends on the input
order, so only the frequency counts, and hence the multiset of
(token, frequency) pairs, are invariant; among the selected tokens only
the relative order of equal-frequency tokens, and the selection at the
cutoff, may differ. -/
theorem claim_C8_amended (texts1 texts2 : List String) (h : List.Perm texts1 texts2)
    (w : String) :
    lookupFreq (buildFreq (combinedTokens texts1)) w =
      lookupFreq (buildFreq (combinedTokens texts2)) w := by
  rw [lookupFreq_buildFreq, lookupFreq_buildFreq]
  apply List.Perm.count_eq
  apply List.Perm.filter
  rw [combinedTokens_flatMap, combinedTokens_flatMap]
  apply List.Perm.map
  simp only [List.flatMap_def]
  exact (h.map tokensOfText).flatten

/-- 26 distinct four-letter words, each occurring once. -/
def textA : String :=
  "qaaa qbbb qccc qddd qeee qfff qggg qhhh qiii qjjj qkkk qlll qmmm qnnn qooo qppp qqqq qrrr qsss qttt quuu qvvv qwww qxxx qyyy qzzz"

/-- 25 further distinct four-letter words, each occurring once. -/
def textB : String :=
  "raaa rbbb rccc rddd reee rfff rggg rhhh riii rjjj rkkk rlll rmmm rnnn rooo rppp rqqq rrrr rsss rttt ruuu rvvv rwww rxxx ryyy"

set_option maxRecDepth 8192 in
/-- Counterexample to C8: the claim says permuting the input texts
yields the same SET of top-N keywords, only the order among equal
frequencies differing.  With 51 distinct surviving tokens of frequency
1 each, the stable sort keeps first-seen order and the top-50 cut drops
the last-seen token: on `[textA, textB]` the keyword `"qzzz"` survives,
on `[textB, textA]` it is the one cut off — the two keyword sets
differ. -/
theorem claim_C8_counterexample :
    ("qzzz" ∈ keywordsOfTexts [textA, textB]) ∧
    ¬ ("qzzz" ∈ keywordsOfTexts [textB, textA]) := by
  decide

/-- Witness for C8 (amended): the two permuted runs of the
counterexample indeed assign the same frequency to `"qzzz"` (and the
hypothesis that `[textA, textB]` is a permutation of `[textB, textA]`
is discharged concretely). -/
theorem claim_C8_witness :
    lookupFreq (buildFreq (combinedTokens [textA, textB])) "qzzz" =
      lookupFreq (buildFreq (combinedTokens [textB, textA])) "qzzz" :=
  claim_C8_amended [textA, textB] [textB, textA] (List.Perm.swap textB textA []) "qzzz"
